import Mathlib

/-!
Shallow embedding of the node-test-jest-compat shim's core state machinery:
the retry-wrapping control flow (`withRetries` in testFiltering.ts and the
identical `handleRetries` loop in testFunctions.ts), the retry/describe-stack
registry, the module-mock registry, the mock/spy registry and the only-mode
flag (registry.ts), together with proofs about the claims of the spec.
-/

namespace NodeTestJestCompat

/-! ## JavaScript values thrown by test bodies

Test bodies may `throw` arbitrary JavaScript values.  The retry loop's
behaviour depends on two JS facts about the thrown value: its truthiness
(the `if (lastError)` check) and whether a property access `error.message`
(performed by the retry log line) itself throws a TypeError (it does exactly
for `null` and `undefined`). -/

inductive JsVal where
  | vUndefined : JsVal
  | vNull : JsVal
  | vBool (b : Bool) : JsVal
  | vNum (n : Int) : JsVal
  | vStr (s : String) : JsVal
  /-- An object (e.g. an `Error` instance), identified by an id so that
  object identity (`the very same error value`) can be stated. -/
  | vObj (id : Nat) : JsVal
deriving DecidableEq, Repr

/-- JavaScript truthiness of a value. -/
def JsVal.truthy : JsVal → Bool
  | .vUndefined => false
  | .vNull => false
  | .vBool b => b
  | .vNum n => n != 0
  | .vStr s => !s.isEmpty
  | .vObj _ => true

/-- Whether the property access `v.message` throws a TypeError in JS:
it does exactly for `null` and `undefined`; on any other value (including
primitives) it yields `undefined` without error. -/
def JsVal.memberAccessThrows : JsVal → Bool
  | .vUndefined => true
  | .vNull => true
  | _ => false

/-! ## The retry loop

`withRetries` (testFiltering.ts) builds a `wrappedFn` around the test body:

    let lastError: Error | undefined;
    let attempt = 0;
    while (attempt <= retryCount) {
      try { await fn(t, ...args); return; }
      catch (error) {
        lastError = error;
        if (attempt < retryCount) console.log(`... (${error.message})`);
        attempt++;
      }
    }
    if (lastError) throw lastError;

`handleRetries` in testFunctions.ts is the same loop verbatim.  A body is
embedded as a function from the attempt index (0-based invocation number)
to `none` (the attempt returns) or `some e` (the attempt throws `e`). -/

/-- Outcome of one run of the wrapped test function. -/
inductive RetryOutcome where
  /-- `wrappedFn` returned normally after `attempts` invocations of the body. -/
  | normal (attempts : Nat) : RetryOutcome
  /-- `wrappedFn` re-threw `e` (the `lastError`) after `attempts` invocations. -/
  | thrown (e : JsVal) (attempts : Nat) : RetryOutcome
  /-- The log line's `error.message` access threw a TypeError, which
  propagates out of the catch block, after `attempts` invocations. -/
  | typeError (attempts : Nat) : RetryOutcome
deriving DecidableEq, Repr

/-- The retry loop, starting at invocation index `attempt` with the current
value of the `lastError` variable (initially `undefined`).  `fuel` counts the
remaining loop iterations, maintained as `retryCount + 1 - attempt`. -/
def retryLoop (body : Nat → Option JsVal) (retryCount : Nat) :
    Nat → Nat → JsVal → RetryOutcome
  | 0, attempt, lastError =>
      if lastError.truthy then .thrown lastError attempt else .normal attempt
  | fuel + 1, attempt, lastError =>
      match body attempt with
      | none => .normal (attempt + 1)
      | some e =>
          if attempt < retryCount && e.memberAccessThrows then
            .typeError (attempt + 1)
          else
            retryLoop body retryCount fuel (attempt + 1) e

/-- Run the wrapped function built by `withRetries` / `handleRetries` for a
given retry budget. -/
def withRetriesRun (body : Nat → Option JsVal) (retryCount : Nat) : RetryOutcome :=
  retryLoop body retryCount (retryCount + 1) 0 .vUndefined

/-! ## The retry registry and describe-block stack (registry.ts)

    let currentRetryCount = 0;
    const describeStack: \x7b name: string; retryCount: number \x7d[] = [];

The JS array pushes and pops at its end; the embedding keeps the top of the
stack at the head of the list. -/

/-- One entry of the describe-block stack. -/
structure DescribeEntry where
  name : String
  retryCount : Nat
deriving DecidableEq, Repr

/-- The retry-related registry state. -/
structure RetryRegistry where
  currentRetryCount : Nat
  describeStack : List DescribeEntry
deriving DecidableEq, Repr

/-- retryRegistry.setGlobalRetryCount: stores the process-wide default and,
if a describe block is on the stack, also overwrites the top entry's
retryCount. -/
def setGlobalRetryCount (st : RetryRegistry) (count : Nat) : RetryRegistry :=
  match st.describeStack with
  | [] => { st with currentRetryCount := count }
  | top :: rest =>
      { currentRetryCount := count,
        describeStack := { top with retryCount := count } :: rest }

/-- retryRegistry.getCurrentRetryCount: the innermost stack entry's count if
the stack is non-empty, else the global default. -/
def getCurrentRetryCount (st : RetryRegistry) : Nat :=
  match st.describeStack with
  | top :: _ => top.retryCount
  | [] => st.currentRetryCount

/-- retryRegistry.pushDescribeBlock: computes the inherited count via
getCurrentRetryCount before pushing, then pushes the new entry. -/
def pushDescribeBlock (st : RetryRegistry) (name : String) : RetryRegistry :=
  { st with describeStack :=
      { name := name, retryCount := getCurrentRetryCount st } :: st.describeStack }

/-- retryRegistry.popDescribeBlock: removes the top entry; popping an empty
stack is a no-op (Array.prototype.pop on an empty array). -/
def popDescribeBlock (st : RetryRegistry) : RetryRegistry :=
  { st with describeStack := st.describeStack.tail }

/-! ## Registration-time capture of the retry budget (withRetries)

`withRetries` (testFiltering.ts) runs at registration time:

    const retryCount = getCurrentRetryCount();
    ...
    const wrappedFn = async (t, ...args) => \x7b ... while (attempt <= retryCount) ... \x7d;
    return testFn(name, options, wrappedFn);

The closure `wrappedFn` mentions only the captured `retryCount`; it never
consults the registry when the host later invokes it.  The embedding makes
the wrapper record the captured budget, and makes invocation take the
registry state at invocation time as an argument (which the source closure
could have read, but does not). -/

/-- A test registered through `withRetries`: the name and the retry budget
captured when the wrapper was constructed. -/
structure RegisteredTest where
  name : String
  capturedRetryCount : Nat
deriving DecidableEq, Repr

/-- Registration: read getCurrentRetryCount from the registry state at
registration time and capture it in the wrapper. -/
def withRetriesRegister (st : RetryRegistry) (name : String) : RegisteredTest :=
  { name := name, capturedRetryCount := getCurrentRetryCount st }

/-- The host invokes the wrapped function later, under registry state
`stAtInvocation`; the source closure does not read the registry then, so the
outcome is computed from the captured budget alone. -/
def invokeRegisteredTest (rt : RegisteredTest) (stAtInvocation : RetryRegistry)
    (body : Nat → Option JsVal) : RetryOutcome :=
  withRetriesRun body rt.capturedRetryCount

/-! ## The wrapped suite body (createDescribeFunction, testFunctions.ts)

    const wrappedFn = fn ? () => \x7b
      retryRegistry.pushDescribeBlock(name);
      fn!();
      retryRegistry.popDescribeBlock();
    \x7d : undefined;

There is no try/finally: if `fn()` throws, the pop is not executed and the
exception propagates.  A suite body is embedded as a state transformer that
returns the registry as mutated so far plus `some e` when it throws `e`. -/

def describeWrappedRun (name : String)
    (body : RetryRegistry → RetryRegistry × Option JsVal)
    (st : RetryRegistry) : RetryRegistry × Option JsVal :=
  match body (pushDescribeBlock st name) with
  | (st2, none) => (popDescribeBlock st2, none)
  | (st2, some e) => (st2, some e)

/-- The registry state of a fresh process: global retry count 0, empty
describe stack. -/
def emptyRegistry : RetryRegistry := { currentRetryCount := 0, describeStack := [] }

/-- A suite body that throws immediately during registration, leaving the
registry otherwise untouched. -/
def throwingSuiteBody : RetryRegistry → RetryRegistry × Option JsVal :=
  fun st => (st, some (.vObj 0))

/-! ## Only-mode flag and the public registration operations

registry.ts holds `let onlyMode = false` with filterRegistry.setOnlyMode /
isOnlyMode.  The public surface wired up by index.ts (testFunctions.ts's
createTestFunction / createDescribeFunction plus retryTimes) touches the
flag in exactly two places: test.only and describe.only call
setOnlyMode(true).  No exported operation calls setOnlyMode(false). -/

/-- The registry state visible to the test/describe/filter façade. -/
structure ShimState where
  retry : RetryRegistry
  onlyMode : Bool
deriving DecidableEq, Repr

/-- Which variant of a test/describe entry point is used. -/
inductive TestVariant where
  | plain : TestVariant
  | vonly : TestVariant
  | vskip : TestVariant
  | vtodo : TestVariant
deriving DecidableEq, Repr

/-- Whether the variant's entry point calls filterRegistry.setOnlyMode(true)
(testFunction.only and describeFunction.only do; no other public operation
touches the flag). -/
def TestVariant.setsOnly : TestVariant → Bool
  | .vonly => true
  | _ => false

/-- A synchronous registration script run against the façade: test
registrations, describe blocks with nested registrations, and
test.retryTimes calls. -/
inductive Registration where
  | rtest (v : TestVariant) : Registration
  | rdescribe (name : String) (v : TestVariant) (body : Registration) : Registration
  | rretryTimes (n : Nat) : Registration
  | rseq (a b : Registration) : Registration
  | rnil : Registration
deriving DecidableEq, Repr

/-- Registration-time effect of the public operations on the registry
state: test.only / describe.only set the only-mode flag; describe pushes a
stack entry, runs its body, pops; retryTimes calls setGlobalRetryCount;
plain/skip/todo registrations write nothing. -/
def applyReg : ShimState → Registration → ShimState
  | s, .rtest v => if v.setsOnly then { s with onlyMode := true } else s
  | s, .rdescribe name v body =>
      let s1 := if v.setsOnly then { s with onlyMode := true } else s
      let s2 := { s1 with retry := pushDescribeBlock s1.retry name }
      let s3 := applyReg s2 body
      { s3 with retry := popDescribeBlock s3.retry }
  | s, .rretryTimes n => { s with retry := setGlobalRetryCount s.retry n }
  | s, .rseq a b => applyReg (applyReg s a) b
  | s, .rnil => s

/-- Whether a registration script invokes any .only entry point. -/
def containsOnly : Registration → Bool
  | .rtest v => v.setsOnly
  | .rdescribe _ v body => v.setsOnly || containsOnly body
  | .rretryTimes _ => false
  | .rseq a b => containsOnly a || containsOnly b
  | .rnil => false

/-! ## Module mocking (moduleMocking.ts + registry.ts)

registry.ts keeps `const mockedModules = new Map<string, any>()`.
moduleMocking.ts's mockModule first checks hasMockedModule and returns at
once when the module is already mocked; otherwise it runs the factory (when
given), calls the host substitution primitive test.mock.module — which
returns a context object carrying a restore capability — and stores that
context.  unmockModule (registry.ts) reads the stored context; when one is
present it calls context.restore() and then deletes the map entry.  The
embedding keeps the map as an association list (no duplicate keys are ever
created) and logs the observable effects: host substitution calls, restore
calls, and factory runs. -/

/-- The context object returned by the host's test.mock.module: its restore
capability and the substituted exports, identified by ids so identity can
be stated.  Contexts are JS objects, hence always truthy, so the source's
`if (mockContext)` test is exactly a presence test on the map. -/
structure MockContext where
  restoreId : Nat
  exportsId : Nat
deriving DecidableEq, Repr

/-- Module-mocking registry state plus logs of the observable effects. -/
structure ModuleState where
  mockedModules : List (String × MockContext)
  hostMockCalls : List String
  restoreCalls : List Nat
  factoryRuns : Nat
  nextId : Nat
deriving DecidableEq, Repr

/-- moduleRegistry.hasMockedModule. -/
def hasMockedModule (s : ModuleState) (m : String) : Bool :=
  (s.mockedModules.find? (fun p => p.1 == m)).isSome

/-- moduleRegistry.getMockedModule. -/
def getMockedModule (s : ModuleState) (m : String) : Option MockContext :=
  (s.mockedModules.find? (fun p => p.1 == m)).map Prod.snd

/-- mockModule(moduleName, factory?): early return when already mocked;
otherwise run the factory if provided, call the host substitution primitive
(yielding a fresh context) and register the context.  The returned Option is
the JS return value (undefined on the early-return path). -/
def mockModule (s : ModuleState) (m : String) (hasFactory : Bool) :
    ModuleState × Option MockContext :=
  if hasMockedModule s m then (s, none)
  else
    let ctx : MockContext := { restoreId := s.nextId, exportsId := s.nextId }
    ({ s with
        mockedModules := (m, ctx) :: s.mockedModules,
        hostMockCalls := m :: s.hostMockCalls,
        factoryRuns := s.factoryRuns + (if hasFactory then 1 else 0),
        nextId := s.nextId + 1 }, some ctx)

/-- moduleRegistry.unmockModule: read the stored context; if present, call
its restore capability and then delete the map entry; otherwise no-op. -/
def unmockModule (s : ModuleState) (m : String) : ModuleState :=
  match getMockedModule s m with
  | some ctx =>
      { s with
          restoreCalls := ctx.restoreId :: s.restoreCalls,
          mockedModules := s.mockedModules.filter (fun p => !(p.1 == m)) }
  | none => s

/-- A state in which the module "fs" is currently mocked. -/
def fsMockedState : ModuleState :=
  { mockedModules := [("fs", { restoreId := 0, exportsId := 0 })],
    hostMockCalls := ["fs"], restoreCalls := [], factoryRuns := 1, nextId := 1 }

/-! ## Mock/spy registry (registry.ts mockRegistry)

    const createdMocks = new Set<any>();
    const spiedFunctions = new Map<any, \x7b ... \x7d>();
    restoreAllMocks: () => \x7b
      spiedFunctions.forEach((info, spy) => \x7b
        if (typeof spy.mockRestore === 'function') spy.mockRestore();
      \x7d);
      spiedFunctions.clear();
    \x7d

restoreAllMocks never touches createdMocks. -/

/-- One tracked spy: its identity and whether it exposes a mockRestore
capability (the `typeof spy.mockRestore === 'function'` test). -/
structure SpyInfo where
  spyId : Nat
  hasRestoreCapability : Bool
deriving DecidableEq, Repr

/-- Mock registry state plus the log of mockRestore invocations. -/
structure MockRegState where
  createdMocks : List Nat
  spiedFunctions : List SpyInfo
  restoreInvocations : List Nat
deriving DecidableEq, Repr

/-- mockRegistry.restoreAllMocks: invoke mockRestore on every tracked spy
that has the capability (in map order), then clear the spy map; the
tracked-mocks set is left unchanged. -/
def restoreAllMocks (s : MockRegState) : MockRegState :=
  { s with
      restoreInvocations := s.restoreInvocations ++
        ((s.spiedFunctions.filter (fun i => i.hasRestoreCapability)).map SpyInfo.spyId),
      spiedFunctions := [] }

/-! ## isMockFunction (registry.ts)

    isMockFunction: (fn: any) => \x7b return fn && !!fn._isMockFunction; \x7d

JS `&&` returns its first operand when that operand is falsy, so for a falsy
argument the function returns the argument itself, not a boolean.  For a
truthy argument it returns `!!fn._isMockFunction`, a boolean; property
access on truthy primitives yields undefined, hence false. -/

/-- A candidate value passed to isMockFunction.  An object may or may not
carry a truthy `_isMockFunction` marker. -/
inductive MockCandidate where
  | cUndefined : MockCandidate
  | cNull : MockCandidate
  | cBool (b : Bool) : MockCandidate
  | cNum (n : Int) : MockCandidate
  | cStr (s : String) : MockCandidate
  | cObj (isMockFlagTruthy : Bool) : MockCandidate
deriving DecidableEq, Repr

/-- JavaScript truthiness of a candidate value. -/
def MockCandidate.truthy : MockCandidate → Bool
  | .cUndefined => false
  | .cNull => false
  | .cBool b => b
  | .cNum n => n != 0
  | .cStr s => !s.isEmpty
  | .cObj _ => true

/-- The value of `!!fn._isMockFunction` for a truthy candidate: truthy
primitives have no such property (undefined, hence false); objects carry
their marker. -/
def MockCandidate.mockMarker : MockCandidate → Bool
  | .cObj f => f
  | _ => false

/-- The JS value returned by isMockFunction: either the original (falsy)
argument, returned unchanged by the short-circuiting `&&`, or a boolean. -/
inductive IsMockResult where
  | original (v : MockCandidate) : IsMockResult
  | boolean (b : Bool) : IsMockResult
deriving DecidableEq, Repr

/-- mockRegistry.isMockFunction: `fn && !!fn._isMockFunction`. -/
def isMockFunction (fn : MockCandidate) : IsMockResult :=
  if fn.truthy then .boolean fn.mockMarker else .original fn

theorem JsVal.truthy_memberAccessThrows (v : JsVal) (h : v.truthy = true) :
    v.memberAccessThrows = false := by
  cases v <;> simp_all [JsVal.truthy, JsVal.memberAccessThrows]

/-- Loop invariant for the success case: if every attempt strictly before `K`
throws a truthy error and attempt `K` succeeds, the loop entered at any index
`attempt ≤ K ≤ retryCount` returns normally after `K + 1` invocations. -/
theorem retryLoop_success (body : Nat → Option JsVal) (rc K : Nat)
    (err : Nat → JsVal)
    (herr : ∀ i, i < K → (err i).truthy = true)
    (hfail : ∀ i, i < K → body i = some (err i))
    (hsucc : body K = none) (hK : K ≤ rc) :
    ∀ fuel attempt lastError, fuel = rc + 1 - attempt → attempt ≤ K →
      retryLoop body rc fuel attempt lastError = .normal (K + 1) := by
  intro fuel
  induction fuel with
  | zero =>
      intro attempt lastError hfuel hatt
      omega
  | succ n ih =>
      intro attempt lastError hfuel hatt
      rcases Nat.lt_or_ge attempt K with hlt | hge
      · have hb := hfail attempt hlt
        have ht := herr attempt hlt
        have hm := JsVal.truthy_memberAccessThrows _ ht
        have hcond : (decide (attempt < rc) && (err attempt).memberAccessThrows) = false := by
          simp [hm]
        simp only [retryLoop, hb, hcond, Bool.false_eq_true, if_false]
        exact ih (attempt + 1) (err attempt) (by omega) (by omega)
      · have hKa : attempt = K := by omega
        subst hKa
        simp only [retryLoop, hsucc]

/-- Loop invariant for the all-fail case: if every attempt up to the budget
throws, no pre-final attempt's error is `null`/`undefined`, then the loop
exhausts the budget with `rc + 1` invocations and ends on the final
`if (lastError)` check applied to the error of the last attempt. -/
theorem retryLoop_allFail (body : Nat → Option JsVal) (rc : Nat)
    (err : Nat → JsVal)
    (hfail : ∀ i, i ≤ rc → body i = some (err i))
    (hsafe : ∀ i, i < rc → (err i).memberAccessThrows = false) :
    ∀ fuel attempt lastError, fuel = rc + 1 - attempt → attempt ≤ rc →
      retryLoop body rc fuel attempt lastError =
        (if (err rc).truthy then .thrown (err rc) (rc + 1) else .normal (rc + 1)) := by
  intro fuel
  induction fuel with
  | zero =>
      intro attempt lastError hfuel hatt
      omega
  | succ n ih
      =>
      intro attempt lastError hfuel hatt
      have hb := hfail attempt hatt
      rcases Nat.lt_or_ge attempt rc with hlt | hge
      · have hm := hsafe attempt hlt
        have hcond : (decide (attempt < rc) && (err attempt).memberAccessThrows) = false := by
          simp [hm]
        simp only [retryLoop, hb, hcond, Bool.false_eq_true, if_false]
        exact ih (attempt + 1) (err attempt) (by omega) (by omega)
      · have hra : attempt = rc := by omega
        subst hra
        have hn : n = 0 := by omega
        subst hn
        have hcond : (decide (attempt < attempt) && (err attempt).memberAccessThrows) = false := by
          simp
        simp only [retryLoop, hb, hcond, Bool.false_eq_true, if_false]

/-- C3: for every retry budget N and every test body that throws a (truthy,
object-like) error on exactly its first K invocations and succeeds on
invocation K+1: if K ≤ N the wrapper returns normally after exactly K+1
invocations of the body; if K > N it invokes the body exactly N+1 times and
re-raises the very error value captured on the (N+1)-th attempt. -/
theorem retry_budget_attempt_counts (N K : Nat) (err : Nat → JsVal)
    (body : Nat → Option JsVal)
    (herr : ∀ i, (err i).truthy = true)
    (hfail : ∀ i, i < K → body i = some (err i))
    (hsucc : body K = none) :
    (K ≤ N → withRetriesRun body N = .normal (K + 1)) ∧
    (K > N → withRetriesRun body N = .thrown (err N) (N + 1)) := by
  constructor
  · intro hKN
    exact retryLoop_success body N K err (fun i _ => herr i) hfail hsucc hKN
      (N + 1) 0 .vUndefined (by omega) (by omega)
  · intro hKN
    have hfail2 : ∀ i, i ≤ N → body i = some (err i) := fun i hi => hfail i (by omega)
    have hsafe : ∀ i, i < N → (err i).memberAccessThrows = false := fun i _ =>
      JsVal.truthy_memberAccessThrows _ (herr i)
    have h2 := retryLoop_allFail body N err hfail2 hsafe (N + 1) 0 .vUndefined
      (by omega) (by omega)
    unfold withRetriesRun
    rw [h2, if_pos (herr N)]

/-- C3 witness: budget N = 2 and a body failing exactly once with the error
object `vObj 7` succeeds on its second invocation. -/
theorem retry_budget_attempt_counts_witness :
    withRetriesRun (fun i => if i < 1 then some (.vObj 7) else none) 2 = .normal 2 :=
  (retry_budget_attempt_counts 2 1 (fun _ => .vObj 7)
      (fun i => if i < 1 then some (.vObj 7) else none)
      (fun _ => rfl) (by decide) (by decide)).1 (by decide)

/-- C10 counterexample: with retry budget 1 and a body throwing the falsy
value `undefined` on every attempt, the wrapper does not return normally:
the retry log's `error.message` access on `undefined` throws a TypeError
after the first invocation, which propagates and fails the test. -/
theorem falsy_throw_counterexample :
    JsVal.truthy .vUndefined = false ∧
    withRetriesRun (fun _ => some .vUndefined) 1 = .typeError 1 := by
  exact ⟨rfl, rfl⟩

/-- C10 amended: for every retry budget N, if every one of the N+1 attempts
throws a falsy value and no attempt before the last throws `null` or
`undefined` (whose `.message` access in the retry log line itself throws a
TypeError that propagates instead), the wrapper's final `if (lastError)`
check fails and the wrapper returns normally after N+1 invocations, so the
host reports the test as passing despite every attempt having failed. -/
theorem falsy_throw_reports_pass (N : Nat) (err : Nat → JsVal)
    (body : Nat → Option JsVal)
    (hfail : ∀ i, i ≤ N → body i = some (err i))
    (hfalsy : ∀ i, i ≤ N → (err i).truthy = false)
    (hsafe : ∀ i, i < N → (err i).memberAccessThrows = false) :
    withRetriesRun body N = .normal (N + 1) := by
  have h2 := retryLoop_allFail body N err hfail hsafe (N + 1) 0 .vUndefined
    (by omega) (by omega)
  unfold withRetriesRun
  rw [h2, if_neg]
  simp [hfalsy N (Nat.le_refl N)]

/-- C10 amended witness: budget 1 with every attempt throwing the falsy
number 0 makes the wrapper return normally after 2 invocations. -/
theorem falsy_throw_reports_pass_witness :
    withRetriesRun (fun _ => some (.vNum 0)) 1 = .normal 2 :=
  falsy_throw_reports_pass 1 (fun _ => .vNum 0) (fun _ => some (.vNum 0))
    (fun _ _ => rfl) (fun _ _ => rfl) (fun _ _ => rfl)

/-- C1 counterexample: starting from the fresh registry (empty stack), a
suite body that throws during registration leaves the describe-block stack
at depth 1 after the wrapped body's execution, while the depth before was 0:
the push is not matched by a pop on an exceptional exit (no try/finally in
the wrapper). -/
theorem describe_stack_balance_counterexample :
    emptyRegistry.describeStack.length = 0 ∧
    (describeWrappedRun "A" throwingSuiteBody emptyRegistry).2 = some (.vObj 0) ∧
    (describeWrappedRun "A" throwingSuiteBody emptyRegistry).1.describeStack.length = 1 :=
  ⟨rfl, rfl, rfl⟩

/-- C1 amended: for a suite body that itself preserves the stack depth, the
describe-block stack depth after the wrapped body's execution equals the
depth before it when the body returns normally; when the body throws during
registration, the pushed entry is not popped (the wrapper has no guaranteed
cleanup), so the depth after exceeds the depth before by one and the
exception propagates. -/
theorem describe_stack_balance (name : String)
    (body : RetryRegistry → RetryRegistry × Option JsVal)
    (st st2 : RetryRegistry) (e : Option JsVal)
    (hrun : body (pushDescribeBlock st name) = (st2, e))
    (hbal : st2.describeStack.length = st.describeStack.length + 1) :
    (e = none →
      (describeWrappedRun name body st).1.describeStack.length
        = st.describeStack.length) ∧
    (e.isSome = true →
      (describeWrappedRun name body st).1.describeStack.length
        = st.describeStack.length + 1) := by
  constructor
  · intro he
    subst he
    simp only [describeWrappedRun, hrun]
    simp only [popDescribeBlock, List.length_tail]
    omega
  · intro he
    cases e with
    | none => simp at he
    | some errv =>
        simp only [describeWrappedRun, hrun]
        exact hbal

/-- C1 amended witness: a suite body that returns normally without touching
the registry leaves the stack depth at 0, the depth before the call. -/
theorem describe_stack_balance_witness :
    (describeWrappedRun "A" (fun s => (s, none)) emptyRegistry).1.describeStack.length = 0 :=
  (describe_stack_balance "A" (fun s => (s, none)) emptyRegistry
      (pushDescribeBlock emptyRegistry "A") none rfl rfl).1 rfl

/-- C2: for every test registered through `withRetries`, the retry budget
governing its execution is the value getCurrentRetryCount() returned at the
moment the wrapper was constructed (registration time, state `s0`); the
registry state at invocation time (`s1`, `s2`) has no effect on the
outcome. -/
theorem retry_budget_captured_at_registration (s0 s1 s2 : RetryRegistry)
    (name : String) (body : Nat → Option JsVal) :
    invokeRegisteredTest (withRetriesRegister s0 name) s1 body
      = withRetriesRun body (getCurrentRetryCount s0) ∧
    invokeRegisteredTest (withRetriesRegister s0 name) s1 body
      = invokeRegisteredTest (withRetriesRegister s0 name) s2 body ∧
    (withRetriesRegister s0 name).capturedRetryCount = getCurrentRetryCount s0 :=
  ⟨rfl, rfl, rfl⟩

/-- C4: pushDescribeBlock pushes an entry carrying the inherited count
computed by getCurrentRetryCount before the push; setGlobalRetryCount sets
the process-wide default and, when the stack is non-empty, overwrites the
top entry's count, so the change is visible to the current block's
subsequent registrations, and a child pushed afterwards inherits exactly
that count. -/
theorem retry_registry_inheritance (st : RetryRegistry) (n : Nat) (child : String)
    (top : DescribeEntry) (rest : List DescribeEntry)
    (h : st.describeStack = top :: rest) :
    (pushDescribeBlock st child).describeStack
        = { name := child, retryCount := getCurrentRetryCount st } :: st.describeStack ∧
    (setGlobalRetryCount st n).currentRetryCount = n ∧
    (setGlobalRetryCount st n).describeStack = { top with retryCount := n } :: rest ∧
    getCurrentRetryCount (setGlobalRetryCount st n) = n ∧
    getCurrentRetryCount (pushDescribeBlock (setGlobalRetryCount st n) child) = n := by
  refine ⟨rfl, ?_, ?_, ?_, ?_⟩ <;>
    simp [setGlobalRetryCount, getCurrentRetryCount, pushDescribeBlock, h]

/-- C4 witness: with the block "parent" (count 0) on top of the stack,
setGlobalRetryCount 3 makes a subsequently pushed child inherit exactly 3. -/
theorem retry_registry_inheritance_witness :
    getCurrentRetryCount
      (pushDescribeBlock (setGlobalRetryCount ⟨0, [⟨"parent", 0⟩]⟩ 3) "child") = 3 :=
  (retry_registry_inheritance ⟨0, [⟨"parent", 0⟩]⟩ 3 "child" ⟨"parent", 0⟩ [] rfl).2.2.2.2

/-- C9: after any registration script runs against the façade, the only-mode
flag is true exactly when it was already true before or the script invoked
some .only entry point: the flag becomes true on the first .only and no
public test/describe/filter operation ever sets it back to false. -/
theorem only_mode_monotone (s : ShimState) (r : Registration) :
    (applyReg s r).onlyMode = (s.onlyMode || containsOnly r) := by
  induction r generalizing s with
  | rtest v => cases v <;> simp [applyReg, containsOnly, TestVariant.setsOnly]
  | rdescribe name v body ih =>
      cases v <;> simp [applyReg, containsOnly, TestVariant.setsOnly, ih, Bool.or_assoc]
  | rretryTimes n => simp [applyReg, containsOnly]
  | rseq a b iha ihb => simp [applyReg, containsOnly, iha, ihb, Bool.or_assoc]
  | rnil => simp [applyReg, containsOnly]

theorem hasMockedModule_filter_self (l : List (String × MockContext)) (m : String) :
    (l.filter (fun p => !(p.1 == m))).find? (fun p => p.1 == m) = none := by
  rw [List.find?_eq_none]
  intro p hp
  have h := List.mem_filter.mp hp
  simpa using h.2

/-- C5: a second mock request for an already-mocked module identifier is a
complete no-op: the state is unchanged (so the stored context, the factory
run count and the host substitution log are untouched) and the call returns
undefined. -/
theorem mock_already_mocked_noop (s : ModuleState) (m : String) (hf : Bool)
    (h : hasMockedModule s m = true) :
    (mockModule s m hf).1 = s ∧
    (mockModule s m hf).2 = none ∧
    getMockedModule (mockModule s m hf).1 m = getMockedModule s m ∧
    (mockModule s m hf).1.factoryRuns = s.factoryRuns ∧
    (mockModule s m hf).1.hostMockCalls = s.hostMockCalls := by
  simp [mockModule, h]

/-- C5 witness: re-mocking "fs" while it is mocked changes nothing and
returns undefined. -/
theorem mock_already_mocked_noop_witness :
    (mockModule fsMockedState "fs" true).1 = fsMockedState ∧
    (mockModule fsMockedState "fs" true).2 = none :=
  ⟨(mock_already_mocked_noop fsMockedState "fs" true (by decide)).1,
   (mock_already_mocked_noop fsMockedState "fs" true (by decide)).2.1⟩

/-- C6: unmocking a currently-mocked module invokes the stored context's
restore capability and fully removes the map entry, so the identifier is no
longer treated as mocked and a subsequent mock call creates a fresh mock
(returns a context, runs the factory, registers the module again). -/
theorem unmock_then_remock (s : ModuleState) (m : String) (ctx : MockContext)
    (h : getMockedModule s m = some ctx) :
    (unmockModule s m).restoreCalls = ctx.restoreId :: s.restoreCalls ∧
    hasMockedModule (unmockModule s m) m = false ∧
    ((mockModule (unmockModule s m) m true).2).isSome = true ∧
    hasMockedModule (mockModule (unmockModule s m) m true).1 m = true ∧
    (mockModule (unmockModule s m) m true).1.factoryRuns
      = (unmockModule s m).factoryRuns + 1 := by
  have hfm : (unmockModule s m).mockedModules
      = s.mockedModules.filter (fun p => !(p.1 == m)) := by
    simp [unmockModule, h]
  have h2 : hasMockedModule (unmockModule s m) m = false := by
    simp [hasMockedModule, hfm, hasMockedModule_filter_self]
  refine ⟨?_, h2, ?_, ?_, ?_⟩
  · simp [unmockModule, h]
  · simp [mockModule, h2]
  · have h2' : (List.find? (fun p => p.1 == m) (unmockModule s m).mockedModules).isSome
        = false := h2
    simp only [mockModule, hasMockedModule, h2', Bool.false_eq_true, if_false]
    simp [List.find?]
  · simp [mockModule, h2]

/-- C6 witness: unmocking "fs" calls restore capability 0, removes the
entry, and a subsequent mock call for "fs" succeeds afresh. -/
theorem unmock_then_remock_witness :
    (unmockModule fsMockedState "fs").restoreCalls = [0] ∧
    hasMockedModule (unmockModule fsMockedState "fs") "fs" = false ∧
    hasMockedModule (mockModule (unmockModule fsMockedState "fs") "fs" true).1 "fs" = true :=
  ⟨(unmock_then_remock fsMockedState "fs" ⟨0, 0⟩ (by decide)).1,
   (unmock_then_remock fsMockedState "fs" ⟨0, 0⟩ (by decide)).2.1,
   (unmock_then_remock fsMockedState "fs" ⟨0, 0⟩ (by decide)).2.2.2.1⟩

/-- C7: restoreAllMocks invokes the restore capability of exactly the
tracked spies that have one, empties the spy map, leaves the tracked-mocks
set unchanged, and is idempotent: a second consecutive call changes nothing
(in particular it performs no further restore attempts). -/
theorem restore_all_mocks_idempotent (s : MockRegState) :
    (restoreAllMocks s).spiedFunctions = [] ∧
    (restoreAllMocks s).createdMocks = s.createdMocks ∧
    (restoreAllMocks s).restoreInvocations
      = s.restoreInvocations ++
          ((s.spiedFunctions.filter (fun i => i.hasRestoreCapability)).map SpyInfo.spyId) ∧
    restoreAllMocks (restoreAllMocks s) = restoreAllMocks s := by
  refine ⟨rfl, rfl, rfl, ?_⟩
  simp [restoreAllMocks]

/-- C8: evaluation of `fn && !!fn._isMockFunction` at the claim's inputs.
For truthy inputs the result is the boolean `_isMockFunction` marker, but
for falsy inputs (null, undefined, 0, empty string) the short-circuiting
`&&` returns the input value itself, not the boolean false the claim (and
the wrapper's own `: boolean` annotation) promises. -/
theorem is_mock_function_eval :
    isMockFunction .cNull = .original .cNull ∧
    isMockFunction .cNull ≠ .boolean false ∧
    isMockFunction .cUndefined = .original .cUndefined ∧
    isMockFunction (.cNum 0) = .original (.cNum 0) ∧
    isMockFunction (.cStr "") = .original (.cStr "") ∧
    isMockFunction (.cObj true) = .boolean true ∧
    isMockFunction (.cObj false) = .boolean false ∧
    isMockFunction (.cNum 5) = .boolean false ∧
    isMockFunction (.cStr "x") = .boolean false := by
  decide

end NodeTestJestCompat
